import Mathlib

/-!
# FALCON — verification of the conversation-orchestration core

Shallow embedding of the FALCON personal-assistant repository
(`Falcon.py`, `Backend/Brain.py`, `Backend/Automation.py`) and proofs
about the claims of its specification.

Conventions of the embedding:
* The sqlite-backed conversation table becomes a list of `Row` values;
  rowids are assigned as `max id + 1`, as sqlite does for this schema.
* Python strings are Lean `String`s; `str.strip()` is `pyStripS`,
  Python truthiness of a string is comparison with `""`.
* Fallible external collaborators (the language-model client, the
  image/content generators, the sqlite INSERT) are oracles passed in as
  explicit parameters: `Except String _` values whose `.error` case is
  the exception the Python call would raise, rendered as `str(e)`.
* `try/except` blocks become `match` on those `Except` values; a Python
  function that can let an exception escape returns `Except String _`.
-/

/-- ASCII apostrophe, kept out of string literals. -/
def apos : Char := Char.ofNat 39

/-- ASCII backtick, kept out of character literals. -/
def btick : Char := Char.ofNat 96

/-- ASCII double quote. -/
def dquote : Char := Char.ofNat 34

/-- Python `str.isspace` characters relevant to `str.strip()` /
regex `\s`: space, tab, newline, carriage return, vertical tab, form feed. -/
def isPyWs (c : Char) : Bool :=
  c = ' ' || c = Char.ofNat 9 || c = Char.ofNat 10 || c = Char.ofNat 13 ||
  c = Char.ofNat 11 || c = Char.ofNat 12

/-- Python `str.strip()` on a character list: drop whitespace from both ends. -/
def pyStrip (s : List Char) : List Char :=
  ((s.dropWhile isPyWs).reverse.dropWhile isPyWs).reverse

/-- Python `str.strip()` on a `String`. -/
def pyStripS (s : String) : String :=
  (pyStrip s.toList).asString

/-- Suffix of `s` just after the first occurrence of `pat`, if `pat` occurs
(the semantics of scanning for a literal left to right). -/
def afterFirst (pat : List Char) : List Char → Option (List Char)
  | [] => if pat = [] then some [] else none
  | c :: rest =>
      if pat.isPrefixOf (c :: rest) then some ((c :: rest).drop pat.length)
      else afterFirst pat rest

/-- Prefix of `s` strictly before the first occurrence of `pat`. -/
def beforeFirst (pat : List Char) : List Char → Option (List Char)
  | [] => if pat = [] then some [] else none
  | c :: rest =>
      if pat.isPrefixOf (c :: rest) then some []
      else (beforeFirst pat rest).map (fun l => c :: l)

/-- Does `pat` occur as a contiguous sublist of `hay`? -/
def containsSub (pat hay : List Char) : Bool :=
  (afterFirst pat hay).isSome

/- ## ConversationStore (`FALCONDatabase` in `Backend/Brain.py`)

The `conversations` table: `id INTEGER PRIMARY KEY AUTOINCREMENT,
user TEXT NOT NULL, assistant TEXT, timestamp DATETIME DEFAULT
CURRENT_TIMESTAMP`.  A row is an Exchange; `timestamp` is modelled as a
natural number of seconds (`DATE(timestamp)` is division by 86400). -/

/-- One row of the `conversations` table. -/
structure Row where
  id : Nat
  user : String
  assistant : Option String
  timestamp : Nat
deriving DecidableEq

/-- The `conversations` table. -/
abbrev Store := List Row

/-- Largest rowid present (0 for the empty table). -/
def maxId : Store → Nat
  | [] => 0
  | r :: rs => max r.id (maxId rs)

/-- The rowid sqlite assigns to the next INSERT for this schema. -/
def freshId (s : Store) : Nat := maxId s + 1

/-- `FALCONDatabase.add_conversation` (Brain.py:67): INSERT the pair,
return `cursor.lastrowid`.  The wall-clock second `ts` fills the
`timestamp DEFAULT CURRENT_TIMESTAMP` column. -/
def add_conversation (s : Store) (user_message : String)
    (assistant_message : Option String) (ts : Nat) : Store × Nat :=
  (s ++ [⟨freshId s, user_message, assistant_message, ts⟩], freshId s)

/-- `FALCONDatabase.update_assistant_response` (Brain.py:79):
`UPDATE conversations SET assistant = ? WHERE id = ?`.  sqlite updates
every matching row and raises nothing when no row matches. -/
def update_assistant_response (s : Store) (conversation_id : Nat)
    (assistant_message : String) : Store :=
  s.map (fun r =>
    if r.id = conversation_id then { r with assistant := some assistant_message } else r)

/-- Stable insertion, by timestamp, of a row into an already sorted list
(ties keep the earlier-inserted row first, as sqlite enumerates). -/
def insertByTs (r : Row) : List Row → List Row
  | [] => [r]
  | y :: ys => if r.timestamp ≤ y.timestamp then r :: y :: ys else y :: insertByTs r ys

/-- `ORDER BY timestamp ASC` as a stable sort. -/
def sortByTs : List Row → List Row
  | [] => []
  | x :: xs => insertByTs x (sortByTs xs)

/-- A chat message as built by `get_conversation_history`. -/
structure Msg where
  role : String
  content : String
deriving DecidableEq

/-- The loop of Brain.py:107-111: one user message per row, plus an
assistant message when the assistant text is truthy (non-null, non-empty). -/
def rowsToMessages : List Row → List Msg
  | [] => []
  | r :: rs =>
      ⟨"user", r.user⟩ ::
        (match r.assistant with
         | some a => if a = "" then rowsToMessages rs else ⟨"assistant", a⟩ :: rowsToMessages rs
         | none => rowsToMessages rs)

/-- Python truthiness of the `limit` argument (`if limit:` at Brain.py:101):
`None` and `0` are falsy. -/
def limitTruthy : Option Nat → Bool
  | none => false
  | some n => n ≠ 0

/-- `FALCONDatabase.get_conversation_history` (Brain.py:90):
`SELECT user, assistant FROM conversations WHERE assistant IS NOT NULL
ORDER BY timestamp ASC` with ` LIMIT ?` appended only when `limit` is
truthy, then flattened into role/content messages. -/
def get_conversation_history (s : Store) (limit : Option Nat) : List Msg :=
  let selected := sortByTs (s.filter (fun r => r.assistant ≠ none))
  let capped := if limitTruthy limit then selected.take (limit.getD 0) else selected
  rowsToMessages capped

/-- `DATE(timestamp)` for a timestamp in seconds. -/
def dateOf (t : Nat) : Nat := t / 86400

/-- The WHERE clause built at Brain.py:139-144: each bound is applied only
when the corresponding argument is truthy, and both bounds are inclusive
on `DATE(timestamp)`. -/
def inDateRange (start_date end_date : Option Nat) (r : Row) : Bool :=
  (match start_date with | none => true | some d => d ≤ dateOf r.timestamp) &&
  (match end_date with | none => true | some d => dateOf r.timestamp ≤ d)

/-- One csv line of `df.to_csv(index=False)` (shallow rendering of the
pandas serialization; `None` becomes an empty field). -/
def csvRow (r : Row) : String :=
  toString r.id ++ "," ++ r.user ++ "," ++
    (match r.assistant with | some a => a | none => "") ++ "," ++ toString r.timestamp

/-- Shallow `df.to_csv(index=False)`. -/
def toCsv (rows : List Row) : String :=
  "id,user,assistant,timestamp\n" ++ String.intercalate "\n" (rows.map csvRow)

/-- What `export_conversations` can hand back: a csv text blob or the
`df.to_dict(records)` row list. -/
inductive ExportBlob where
  | csvBlob (text : String)
  | recordsBlob (rows : List Row)
deriving DecidableEq

/-- The exception message of `df.to_excel(index=False)`: `to_excel`
requires its `excel_writer` positional argument, so the call raises
`TypeError` before writing anything. -/
def excelTypeError : String :=
  "TypeError: to_excel() missing 1 required positional argument: " ++
    apos.toString ++ "excel_writer" ++ apos.toString

/-- `FALCONDatabase.export_conversations` (Brain.py:129): filter by the
inclusive DATE range, `ORDER BY timestamp ASC`, then serialize.  The
`excel` branch raises (modelled as `Except.error`) because
`df.to_excel(index=False)` omits the mandatory `excel_writer` argument. -/
def export_conversations (s : Store) (format : String)
    (start_date end_date : Option Nat) : Except String ExportBlob :=
  let rows := sortByTs (s.filter (inDateRange start_date end_date))
  if format = "csv" then Except.ok (ExportBlob.csvBlob (toCsv rows))
  else if format = "excel" then Except.error excelTypeError
  else Except.ok (ExportBlob.recordsBlob rows)

/- ## Automation collaborator (`FalconAI` in `Backend/Automation.py`)

`run_task` asks the model for code, extracts a code block with regexes,
filters it through a regex denylist and (maybe) executes it.  The model
response is an oracle parameter: `Option String` is the value
`execute_task` produced (`none` when the API call raised and the
`except` at Automation.py:127 returned `None`). -/

/-- Case-insensitive character comparison (regex `re.IGNORECASE`). -/
def lowerEq (a b : Char) : Bool := a.toLower = b.toLower

/-- Case-insensitive literal-prefix test. -/
def ciIsPrefix : List Char → List Char → Bool
  | [], _ => true
  | _ :: _, [] => false
  | a :: as, b :: bs => lowerEq a b && ciIsPrefix as bs

/-- The regex fragments the denylist of `validate_code_safety` uses:
case-insensitive literals, `\s+`, `\s*`, a character class, `[^c]*`. -/
inductive RTok where
  | lit (cs : List Char)
  | ws1
  | ws0
  | cls (cs : List Char)
  | notStar (c : Char)

/-- Backtracking matcher with explicit fuel (structural recursion, so the
kernel can evaluate it): does the token sequence match a prefix of `s`?
Every recursive call shrinks `tokens + characters` by at least one while
spending exactly one unit of fuel, so fuel larger than that sum is never
exhausted. -/
def matchToksF : Nat → List RTok → List Char → Bool
  | 0, _, _ => false
  | _ + 1, [], _ => true
  | f + 1, .lit l :: ts, s => ciIsPrefix l s && matchToksF f ts (s.drop l.length)
  | f + 1, .ws1 :: ts, s =>
      match s with
      | [] => false
      | c :: rest => isPyWs c && (matchToksF f ts rest || matchToksF f (.ws1 :: ts) rest)
  | f + 1, .ws0 :: ts, s =>
      matchToksF f ts s ||
        (match s with
         | [] => false
         | c :: rest => isPyWs c && matchToksF f (.ws0 :: ts) rest)
  | f + 1, .cls cs :: ts, s =>
      match s with
      | [] => false
      | c :: rest => cs.any (fun d => lowerEq c d) && matchToksF f ts rest
  | f + 1, .notStar x :: ts, s =>
      matchToksF f ts s ||
        (match s with
         | [] => false
         | c :: rest => decide (c ≠ x) && matchToksF f (.notStar x :: ts) rest)

/-- The matcher with enough fuel for its input. -/
def matchToks (ts : List RTok) (s : List Char) : Bool :=
  matchToksF (s.length + ts.length + 1) ts s

/-- `re.search`: the tokens match starting at some position of `s`. -/
def searchToks (ts : List RTok) : List Char → Bool
  | [] => matchToks ts []
  | c :: rest => matchToks ts (c :: rest) || searchToks ts rest

/-- The seven `dangerous_patterns` of Automation.py:168-176, compiled with
`re.IGNORECASE`. -/
def dangerousPatterns : List (List RTok) :=
  [ [.lit "rm".toList, .ws1, .lit "-rf".toList],
    [.lit "del".toList, .ws1, .lit "/".toList, .cls ['f', 's']],
    [.lit "format".toList, .ws1, .lit "c:".toList],
    [.lit "__import__".toList, .ws0, .lit "(".toList, .ws0,
      .cls [dquote, apos], .lit "os".toList, .cls [dquote, apos]],
    [.lit "eval".toList, .ws0, .lit "(".toList],
    [.lit "exec".toList, .ws0, .lit "(".toList],
    [.lit "open".toList, .ws0, .lit "(".toList, .notStar ')',
      .cls [dquote, apos], .cls ['w', 'a']] ]

/-- `FalconAI.validate_code_safety` (Automation.py:158): `False` as soon
as one denylist pattern matches anywhere, else `True`. -/
def validate_code_safety (code : String) : Bool :=
  !(dangerousPatterns.any (fun p => searchToks p code.toList))

/-- First match of a non-greedy `open(.*?)close` pair with `re.DOTALL`:
the text between the first occurrence of `openTok` and the first
occurrence of `closeTok` after it. -/
def extractBetween (openTok closeTok s : List Char) : Option (List Char) :=
  (afterFirst openTok s).bind (fun rest => beforeFirst closeTok rest)

/-- First match of the inline pattern `x60([^x60]+)x60` (single-backtick
code span), scanning left to right as `re.findall` does. -/
def inlineCode : List Char → Option (List Char)
  | [] => none
  | c :: rest =>
      if c = btick then
        let inner := rest.takeWhile (fun x => x ≠ btick)
        if inner = [] then inlineCode rest
        else if rest.drop inner.length = [] then inlineCode rest
        else some inner
      else inlineCode rest

/-- `FalconAI.extract_code_from_response` (Automation.py:130): try the
fenced `python` block, then any fenced block, then an inline span; the
first match is stripped and returned, else `None`. -/
def extract_code_from_response (response : String) : Option String :=
  if response = "" then none
  else
    match extractBetween "```python\n".toList "\n```".toList response.toList with
    | some c => some (pyStrip c).asString
    | none =>
        match extractBetween "```\n".toList "\n```".toList response.toList with
        | some c => some (pyStrip c).asString
        | none =>
            match inlineCode response.toList with
            | some c => some (pyStrip c).asString
            | none => none

/-- `FalconAI.execute_task` (Automation.py:105): the API call either
raises (caught, returning `None`) or yields content that is stripped.
`apiContent` is the oracle for `response.choices[0].message.content`
(`none` covers both a raised fault and a `None` content, whose
`.strip()` raises and is caught the same way). -/
def execute_task (apiContent : Option String) : Option String :=
  match apiContent with
  | none => none
  | some c => some (pyStripS c)

/-- Result of the automation pipeline: the string `run_task` returns and
whether the `exec` call at Automation.py:213 was reached. -/
structure RunOutcome where
  status : String
  ran : Bool
deriving DecidableEq

/-- `FalconAI.execute_python_code` (Automation.py:184): empty code and
denylisted code return `""` without executing; otherwise `exec` runs and
every exception it raises is swallowed, returning `""` as well. -/
def execute_python_code (code : String) : RunOutcome :=
  if code = "" then ⟨"", false⟩
  else if validate_code_safety code = false then ⟨"", false⟩
  else ⟨"", true⟩

/-- `FalconAI.run_task` (Automation.py:231): the full pipeline.  Every
branch returns `""`; the `ran` flag records whether any code reached
`exec`.  No branch raises. -/
def FalconAI.run_task (apiContent : Option String) (task : String) : RunOutcome :=
  if pyStripS task = "" then ⟨"", false⟩
  else
    match execute_task apiContent with
    | none => ⟨"", false⟩
    | some response =>
        if response = "" then ⟨"", false⟩
        else
          match extract_code_from_response response with
          | none => ⟨"", false⟩
          | some code =>
              if code = "" then ⟨"", false⟩
              else ⟨"", (execute_python_code code).ran⟩

/- ## Tool handlers and dispatch (`FALCONAssistant` in `Backend/Brain.py`)

The image and content collaborators (`ImageGenMain`, `Coder`) are
external network-bound calls; their outcome is an oracle:
`Except.ok ()` when the call returns, `Except.error msg` when it raises
with `str(e) = msg`.  The automation collaborator is `FalconAI.run_task`
above, which never raises, so only its model content is an oracle. -/

/-- Outcomes of the external collaborator calls a tool round can make. -/
structure HandlerEnv where
  automationApi : Option String
  imageOutcome : Except String Unit
  coderOutcome : Except String Unit

/-- `FALCONAssistant.execute_system_task` (Brain.py:252): run the
automation pipeline, answer with the fixed success string.
`FalconAI.run_task` catches all of its own faults, so the `except`
branch (`"Task execution failed: ..."`) is unreachable and the success
string is returned no matter what the pipeline did. -/
def FALCONAssistant.execute_system_task (env : HandlerEnv) (task_description : String) :
    String :=
  let _result := FalconAI.run_task env.automationApi task_description
  "Task executed successfully."

/-- `FALCONAssistant.generate_image` (Brain.py:260): call the image
collaborator, converting any raised fault into a failure string. -/
def FALCONAssistant.generate_image (env : HandlerEnv) : String :=
  match env.imageOutcome with
  | Except.ok _ => "Image generated successfully and opened for viewing."
  | Except.error e => "Image generation failed: " ++ e

/-- `FALCONAssistant.write_content` (Brain.py:268): call the content
collaborator, converting any raised fault into a failure string. -/
def FALCONAssistant.write_content (env : HandlerEnv) : String :=
  match env.coderOutcome with
  | Except.ok _ => "Content generated successfully and saved to file."
  | Except.error e => "Content generation failed: " ++ e

/-- What `json.loads(tool_call.function.arguments)` can produce: a JSON
object with string values, or a parse failure (the `ValueError` that
`json.loads` raises on malformed text). -/
inductive ArgsPayload where
  | invalid
  | object (kv : List (String × String))
deriving DecidableEq

/-- Python dict lookup over the parsed argument object. -/
def lookupArg (kv : List (String × String)) (k : String) : Option String :=
  (kv.find? (fun p => p.fst = k)).map (fun p => p.snd)

/-- The `str(e)` of the `ValueError` raised by `json.loads` on text that
is not JSON. -/
def jsonLoadsError : String := "Expecting value: line 1 column 1 (char 0)"

/-- One structured tool invocation from the model's first response. -/
structure ToolCallMsg where
  callId : String
  name : String
  arguments : ArgsPayload
deriving DecidableEq

/-- `FALCONAssistant.execute_tool_call` (Brain.py:276): parse the
arguments (raising on malformed JSON), then dispatch on the function
name; a required key missing from the parsed object raises `KeyError`;
an unknown name returns a fixed text.  `Except.error` is an exception
escaping the dispatcher. -/
def FALCONAssistant.execute_tool_call (env : HandlerEnv) (name : String)
    (arguments : ArgsPayload) : Except String String :=
  match arguments with
  | ArgsPayload.invalid => Except.error jsonLoadsError
  | ArgsPayload.object kv =>
      if name = "execute_system_task" then
        match lookupArg kv "task_description" with
        | none => Except.error "KeyError: task_description"
        | some t => Except.ok (FALCONAssistant.execute_system_task env t)
      else if name = "generate_image" then
        match lookupArg kv "prompt" with
        | none => Except.error "KeyError: prompt"
        | some _ => Except.ok (FALCONAssistant.generate_image env)
      else if name = "write_content" then
        match lookupArg kv "topic" with
        | none => Except.error "KeyError: topic"
        | some _ => Except.ok (FALCONAssistant.write_content env)
      else Except.ok "Unknown function called."

/-- The arguments payload parses as an object holding the one parameter
the named handler reads (any object at all for an unknown name). -/
def argsOkFor (name : String) (arguments : ArgsPayload) : Bool :=
  match arguments with
  | ArgsPayload.invalid => false
  | ArgsPayload.object kv =>
      if name = "execute_system_task" then (lookupArg kv "task_description").isSome
      else if name = "generate_image" then (lookupArg kv "prompt").isSome
      else if name = "write_content" then (lookupArg kv "topic").isSome
      else true

/- ## The orchestration loop (`FALCONAssistant.process_message`) -/

/-- `response.choices[0].message` of a chat completion: a content string
(possibly `None`) and a possibly empty list of tool calls (Python `None`
and `[]` are both falsy, so one list covers both). -/
structure ModelResponse where
  content : Option String
  tool_calls : List ToolCallMsg
deriving DecidableEq

/-- The oracle for everything `process_message` calls that can fail:
whether the INSERT of the draft exchange raises (`appendFault`), whether
the UPDATE calls of Brain.py:367/373 raise (`updateFault` — one oracle
for both call sites, modelling a persistence layer that has become
unwritable: every UPDATE of the turn then raises with that `str(e)`),
the two chat-completion calls (`Except.error` is a raised fault with
that `str(e)`), the collaborator outcomes behind the tools, and the
rendered wall-clock info string. -/
structure PMEnv where
  appendFault : Option String
  updateFault : Option String
  resp1 : Except String ModelResponse
  handlers : HandlerEnv
  resp2 : Except String ModelResponse
  timeInfo : String

/-- What one `process_message` call produces: the value returned to the
caller (`Except.error` is an exception escaping the method — built only
when the completion UPDATE raises inside the blanket `except Exception`
handler of Brain.py:370-373), the store afterwards, and the trace of
chat-completion requests issued (`true` = the request carried the tool
schema). -/
structure PMResult where
  reply : Except String String
  store : Store
  trace : List Bool

/-- `str(e)` of the `AttributeError` raised by `None.strip()` when a
response carries no content. -/
def noneStripError : String :=
  apos.toString ++ "NoneType" ++ apos.toString ++ " object has no attribute " ++
    apos.toString ++ "strip" ++ apos.toString

/-- The abridged system prompt of Brain.py:220 (opaque prose data; its
text takes no part in any decision of the loop). -/
def system_instructions : String :=
  "FALCON - personal AI companion. Keep responses short, use tools when appropriate."

/-- The loop of Brain.py:325-331: run every tool call in the order the
model returned them, collecting `role=tool` result messages; the first
exception escaping `execute_tool_call` aborts the loop. -/
def runToolCalls (env : HandlerEnv) : List ToolCallMsg → Except String (List Msg)
  | [] => Except.ok []
  | tc :: rest =>
      match FALCONAssistant.execute_tool_call env tc.name tc.arguments with
      | Except.error e => Except.error e
      | Except.ok r =>
          match runToolCalls env rest with
          | Except.error e => Except.error e
          | Except.ok rs => Except.ok (⟨"tool", r⟩ :: rs)

/-- The completion write every terminal branch of `process_message`
performs, shared by the success path (Brain.py:367) and the blanket
handler (Brain.py:373).  When the store raises on UPDATE
(`updateFault = some m`): a fault raised by the UPDATE in the try body
is caught at Brain.py:370, the handler formats its error string and
retries the UPDATE at line 373, which raises again — and an exception
raised inside an `except` block escapes the method (`Except.error m`),
leaving the draft exchange with a null assistant text; a fault of any
earlier step reaches the handler the same way and its single UPDATE at
line 373 raises and escapes likewise.  When the UPDATE works, `text`
(the answer or the formatted error string) is stored and returned. -/
def completeOrEscape (updateFault : Option String) (s1 : Store) (cid : Nat)
    (text : String) (trace : List Bool) : PMResult :=
  { reply :=
      match updateFault with
      | some m => Except.error m
      | none => Except.ok text,
    store :=
      match updateFault with
      | some _ => s1
      | none => update_assistant_response s1 cid text,
    trace := trace }

/-- `FALCONAssistant.process_message` (Brain.py:290): append the draft
exchange, build the context, consult the model with the tool schema; on
tool calls, dispatch them all and consult the model once more without
the schema; strip and store the answer.  Any fault inside the `try`
block becomes `"An error occurred: " ++ str(e)`, stored only when
`conversation_id` was already assigned, and is returned as the reply;
the completion write itself goes through `completeOrEscape`, whose
failure is the one path out of the method that raises. -/
def process_message (env : PMEnv) (ts : Nat) (s : Store) (user_input : String) : PMResult :=
  match env.appendFault with
  | some m =>
      { reply := Except.ok ("An error occurred: " ++ m), store := s, trace := [] }
  | none =>
      let appended := add_conversation s user_input none ts
      let s1 := appended.fst
      let cid := appended.snd
      let history := get_conversation_history s1 (some 20)
      let _api_messages : List Msg :=
        ⟨"system", system_instructions⟩ ::
          ⟨"system", "Current time info: " ++ env.timeInfo⟩ ::
            history ++ [⟨"user", user_input⟩]
      match env.resp1 with
      | Except.error e =>
          completeOrEscape env.updateFault s1 cid ("An error occurred: " ++ e) [true]
      | Except.ok rm =>
          if rm.tool_calls.isEmpty then
            match rm.content with
            | none =>
                completeOrEscape env.updateFault s1 cid
                  ("An error occurred: " ++ noneStripError) [true]
            | some c =>
                completeOrEscape env.updateFault s1 cid (pyStripS c) [true]
          else
            match runToolCalls env.handlers rm.tool_calls with
            | Except.error e =>
                completeOrEscape env.updateFault s1 cid ("An error occurred: " ++ e) [true]
            | Except.ok _tool_results =>
                match env.resp2 with
                | Except.error e =>
                    completeOrEscape env.updateFault s1 cid
                      ("An error occurred: " ++ e) [true, false]
                | Except.ok rm2 =>
                    match rm2.content with
                    | none =>
                        completeOrEscape env.updateFault s1 cid
                          ("An error occurred: " ++ noneStripError) [true, false]
                    | some c =>
                        completeOrEscape env.updateFault s1 cid (pyStripS c) [true, false]

/- ## Presentation shell (`process_user_query` in `Falcon.py`) -/

/-- The dict `process_user_query` returns to the UI. -/
structure ShellReply where
  response : String
  should_speak : Bool
deriving DecidableEq

/-- The `error_indicators` list of Falcon.py:62. -/
def error_indicators : List String :=
  ["error", "apologize", "couldn" ++ apos.toString ++ "t formulate", "issue processing"]

/-- The fixed reply of Falcon.py:53 for empty or whitespace-only input. -/
def didntCatchReply : String :=
  "I didn" ++ apos.toString ++ "t quite catch that. Could you say it again?"

/-- The fixed reply of Falcon.py:70, returned when `process_message`
raises into the shell. -/
def issueReply : String :=
  "I encountered an issue while processing your request. Please try again."

/-- What one shell call produces: the reply dict, the store afterwards,
and whether `assistant.process_message` was invoked at all. -/
structure ShellResult where
  reply : ShellReply
  store : Store
  invokedOrchestrator : Bool

/-- `process_user_query` (Falcon.py:46): reject empty or whitespace-only
input with the fixed reply before touching the assistant; otherwise call
`process_message`, decide `should_speak` by scanning the lowered reply
for the error indicators, and contain any exception the call raises. -/
def process_user_query (env : PMEnv) (ts : Nat) (s : Store)
    (user_query_text : String) : ShellResult :=
  if user_query_text = "" || pyStripS user_query_text = "" then
    ⟨⟨didntCatchReply, true⟩, s, false⟩
  else
    let r := process_message env ts s user_query_text
    match r.reply with
    | Except.ok t =>
        let lower := (t.toList.map Char.toLower).asString
        let speak :=
          !(t = "" || error_indicators.any (fun ind => containsSub ind.toList lower.toList))
        ⟨⟨t, speak⟩, r.store, true⟩
    | Except.error _ => ⟨⟨issueReply, true⟩, r.store, true⟩

/-- Did the first model response carry tool invocations?  (Decides
whether the loop enters the tool round.) -/
def firstRespHadTools (env : PMEnv) : Bool :=
  match env.resp1 with
  | Except.ok rm => !rm.tool_calls.isEmpty
  | Except.error _ => false

/-- A handler environment whose collaborators all succeed. -/
def handlerEnvOk : HandlerEnv :=
  { automationApi := none, imageOutcome := Except.ok (), coderOutcome := Except.ok () }

/-- A handler environment whose image collaborator raises `boom`. -/
def handlerEnvImgFail : HandlerEnv :=
  { automationApi := none, imageOutcome := Except.error "boom", coderOutcome := Except.ok () }

/-- A run in which everything succeeds and the first response is the
direct text `Hello` with no tool calls. -/
def envDirect : PMEnv :=
  { appendFault := none, updateFault := none,
    resp1 := Except.ok ⟨some "Hello", []⟩,
    handlers := handlerEnvOk, resp2 := Except.ok ⟨some "", []⟩, timeInfo := "t" }

/-- A run in which the INSERT of the draft exchange raises. -/
def envAppendFault : PMEnv :=
  { appendFault := some "disk I/O error", updateFault := none,
    resp1 := Except.ok ⟨some "Hello", []⟩,
    handlers := handlerEnvOk, resp2 := Except.ok ⟨some "", []⟩, timeInfo := "t" }

/-- A run in which the INSERT succeeds but the store then becomes
unwritable, so every completion UPDATE raises. -/
def envUpdateFault : PMEnv :=
  { appendFault := none, updateFault := some "database is locked",
    resp1 := Except.ok ⟨some "Hello", []⟩,
    handlers := handlerEnvOk, resp2 := Except.ok ⟨some "", []⟩, timeInfo := "t" }

/- ## Helper lemmas about the store -/

/-- Every rowid present is at most `maxId`. -/
theorem mem_le_maxId {r : Row} {s : Store} (h : r ∈ s) : r.id ≤ maxId s := by
  induction s with
  | nil => cases h
  | cons x xs ih =>
      rcases List.mem_cons.mp h with h1 | h1
      · subst h1; exact Nat.le_max_left _ _
      · exact Nat.le_trans (ih h1) (Nat.le_max_right _ _)

/-- A rowid fresh for `s` matches no row of `s`. -/
theorem freshId_not_hit {r : Row} {s : Store} (h : r ∈ s) : r.id ≠ freshId s := by
  have := mem_le_maxId h
  unfold freshId
  omega

/-- Updating a rowid that no row carries leaves the table unchanged. -/
theorem update_of_miss {s : Store} {cid : Nat} (m : String)
    (h : ∀ r ∈ s, r.id ≠ cid) : update_assistant_response s cid m = s := by
  induction s with
  | nil => rfl
  | cons x xs ih =>
      unfold update_assistant_response at ih ⊢
      simp only [List.map_cons]
      rw [if_neg (h x (List.mem_cons_self x xs)), ih]
      intro r hr
      exact h r (List.mem_cons_of_mem x hr)

/-- `append` then `complete` on the fresh rowid: the old rows are
untouched and the new row gets the assistant text. -/
theorem complete_after_append (s : Store) (u : String) (a : Option String)
    (ts : Nat) (m : String) :
    update_assistant_response (add_conversation s u a ts).fst
      (add_conversation s u a ts).snd m =
    s ++ [⟨freshId s, u, some m, ts⟩] := by
  unfold add_conversation update_assistant_response
  rw [List.map_append]
  have h1 : s.map (fun r =>
      if r.id = freshId s then { r with assistant := some m } else r) = s := by
    have := @update_of_miss s (freshId s) m
      (fun r hr => freshId_not_hit hr)
    unfold update_assistant_response at this
    exact this
  rw [h1]
  simp

/-- Whenever the INSERT of the draft exchange succeeds and the store
accepts the completion UPDATE, `process_message` returns a string reply
(no exception escapes) and the store gains exactly one new row, carrying
the utterance and that reply as assistant text. -/
theorem pm_reply_store (env : PMEnv) (ts : Nat) (s : Store) (u : String)
    (h : env.appendFault = none) (h2 : env.updateFault = none) :
    ∃ ans : String, (process_message env ts s u).reply = Except.ok ans ∧
      (process_message env ts s u).store = s ++ [⟨freshId s, u, some ans, ts⟩] := by
  obtain ⟨af, uf, r1, hnd, r2, ti⟩ := env
  simp only at h h2
  subst h
  subst h2
  cases r1 with
  | error e =>
      exact ⟨"An error occurred: " ++ e, rfl, complete_after_append s u none ts _⟩
  | ok rm =>
      obtain ⟨cnt, tcs⟩ := rm
      cases tcs with
      | nil =>
          cases cnt with
          | none =>
              exact ⟨"An error occurred: " ++ noneStripError, rfl,
                complete_after_append s u none ts _⟩
          | some c =>
              exact ⟨pyStripS c, rfl, complete_after_append s u none ts _⟩
      | cons tc tl =>
          cases hrt : runToolCalls hnd (tc :: tl) with
          | error e =>
              refine ⟨"An error occurred: " ++ e, ?_, ?_⟩
              · simp only [process_message, hrt]; rfl
              · simp only [process_message, hrt]
                exact complete_after_append s u none ts _
          | ok tr =>
              cases r2 with
              | error e =>
                  refine ⟨"An error occurred: " ++ e, ?_, ?_⟩
                  · simp only [process_message, hrt]; rfl
                  · simp only [process_message, hrt]
                    exact complete_after_append s u none ts _
              | ok rm2 =>
                  cases hc2 : rm2.content with
                  | none =>
                      refine ⟨"An error occurred: " ++ noneStripError, ?_, ?_⟩
                      · simp only [process_message, hrt, hc2]; rfl
                      · simp only [process_message, hrt, hc2]
                        exact complete_after_append s u none ts _
                  | some c =>
                      refine ⟨pyStripS c, ?_, ?_⟩
                      · simp only [process_message, hrt, hc2]; rfl
                      · simp only [process_message, hrt, hc2]
                        exact complete_after_append s u none ts _

/-- Claim C8: `process_message` issues at most two language-model
requests — the trace is empty (append raised), or one schema-carrying
request, or that request followed by exactly one schema-free request,
the last shape arising only when the first response carried tool
invocations. -/
theorem C8_theorem (env : PMEnv) (ts : Nat) (s : Store) (u : String) :
    (process_message env ts s u).trace = [] ∨
    (process_message env ts s u).trace = [true] ∨
    ((process_message env ts s u).trace = [true, false] ∧
      firstRespHadTools env = true) := by
  obtain ⟨af, uf, r1, hnd, r2, ti⟩ := env
  cases af with
  | some m => exact Or.inl rfl
  | none =>
      cases r1 with
      | error e => exact Or.inr (Or.inl rfl)
      | ok rm =>
          obtain ⟨cnt, tcs⟩ := rm
          cases tcs with
          | nil =>
              cases cnt with
              | none => exact Or.inr (Or.inl rfl)
              | some c => exact Or.inr (Or.inl rfl)
          | cons tc tl =>
              cases hrt : runToolCalls hnd (tc :: tl) with
              | error e =>
                  refine Or.inr (Or.inl ?_)
                  simp only [process_message, hrt]; rfl
              | ok tr =>
                  refine Or.inr (Or.inr ⟨?_, rfl⟩)
                  cases r2 with
                  | error e => simp only [process_message, hrt]; rfl
                  | ok rm2 =>
                      cases hc2 : rm2.content with
                      | none => simp only [process_message, hrt, hc2]; rfl
                      | some c => simp only [process_message, hrt, hc2]; rfl

/- ## List lemmas for the history read -/

/-- Stable insertion grows the list by one. -/
theorem insertByTs_length (r : Row) (l : List Row) :
    (insertByTs r l).length = l.length + 1 := by
  induction l with
  | nil => rfl
  | cons y ys ih =>
      unfold insertByTs
      by_cases h : r.timestamp ≤ y.timestamp
      · rw [if_pos h]; rfl
      · rw [if_neg h]; simp [ih]

/-- Sorting preserves length. -/
theorem sortByTs_length (l : List Row) : (sortByTs l).length = l.length := by
  induction l with
  | nil => rfl
  | cons x xs ih => unfold sortByTs; rw [insertByTs_length, ih]; rfl

/-- The flattened message list carries exactly one `user` entry per row. -/
theorem userCount_rowsToMessages (l : List Row) :
    ((rowsToMessages l).filter (fun m => m.role == "user")).length = l.length := by
  induction l with
  | nil => rfl
  | cons r rs ih =>
      cases h : r.assistant with
      | none => simp [rowsToMessages, h, List.filter, ih]
      | some a =>
          by_cases ha : a = ""
          · simp [rowsToMessages, h, ha, List.filter, ih]
          · simp [rowsToMessages, h, ha, List.filter, ih]

/- ## The claims -/

/-- Claim C1, counterexample: `process_message` itself performs no
emptiness check — called directly on the whitespace-only utterance
`" "` it writes an exchange row, so the orchestrator does not reject
such input before writing a draft Exchange (only the shell does). -/
theorem C1_counterexample :
    (process_message envDirect 0 [] " ").store = [⟨1, " ", some "Hello", 0⟩] ∧
    (process_message envDirect 0 [] " ").store ≠ ([] : Store) :=
  ⟨rfl, by decide⟩

/-- Claim C1 (amended): the whitespace rejection lives in the shell:
for an utterance that strips to empty, `process_user_query` returns the
fixed reply, leaves the store untouched and never invokes the
orchestrator — so no store row is created on the shell path, while
`process_message` itself would write a draft even for such input. -/
theorem C1_theorem (env : PMEnv) (ts : Nat) (s : Store) (q : String)
    (h : pyStripS q = "") :
    process_user_query env ts s q =
      { reply := { response := didntCatchReply, should_speak := true },
        store := s, invokedOrchestrator := false } := by
  simp [process_user_query, h]

/-- Claim C1, witness: the amended theorem at a concrete whitespace input. -/
theorem C1_witness :
    process_user_query envDirect 0 [] "   " =
      { reply := { response := didntCatchReply, should_speak := true },
        store := [], invokedOrchestrator := false } :=
  C1_theorem envDirect 0 [] "   " (by decide)

/-- Claim C2, counterexample: a storage fault raised by the completion
UPDATE escapes `process_message` — the fault of the write at
Brain.py:367 is caught, but the handler's own retry at line 373 raises
again inside the `except` block, so the reply is an escaping exception
(`Except.error`) and the one new exchange is left with null
assistant text, falsifying both "never lets an exception escape" and
"exactly one new Exchange with non-null assistant_text". -/
theorem C2_counterexample :
    process_message envUpdateFault 0 [] "hello" =
      { reply := Except.error "database is locked",
        store := [⟨1, "hello", none, 0⟩], trace := [true] } := rfl

/-- Claim C2 (amended): for a non-empty utterance, when the INSERT of
the draft exchange succeeds and the store accepts the completion
UPDATE, no exception escapes `process_message`: it returns a string
reply (every fault between the append and the completion having been
converted into the `An error occurred:` reply), and the store gains
exactly one new exchange whose assistant text is that very reply. -/
theorem C2_theorem (env : PMEnv) (ts : Nat) (s : Store) (u : String)
    (happend : env.appendFault = none) (hupdate : env.updateFault = none)
    (_hne : pyStripS u ≠ "") :
    ∃ ans : String, (process_message env ts s u).reply = Except.ok ans ∧
      (process_message env ts s u).store = s ++ [⟨freshId s, u, some ans, ts⟩] :=
  pm_reply_store env ts s u happend hupdate

/-- Claim C2, witness: the amended theorem at a concrete run. -/
theorem C2_witness :
    ∃ ans : String, (process_message envDirect 0 [] "hi").reply = Except.ok ans ∧
      (process_message envDirect 0 [] "hi").store =
        [] ++ [⟨freshId [], "hi", some ans, 0⟩] :=
  C2_theorem envDirect 0 [] "hi" rfl rfl (by decide)

/-- Claim C3, counterexample: a storage failure raised while appending
the draft exchange does not propagate out of `process_message` — it is
caught by the blanket handler and returned as an ordinary
`An error occurred:` reply (`Except.ok`), with no store write. -/
theorem C3_counterexample :
    process_message envAppendFault 0 [] "hello" =
      { reply := Except.ok ("An error occurred: disk I/O error"),
        store := [], trace := [] } := rfl

/-- Claim C3 (amended): a storage failure during `append` does not
propagate — it is caught by the blanket handler, and `process_message`
returns the formatted error reply, leaves the store unchanged and issues
no model request (`conversation_id` was never assigned, so the handler
attempts no completion write). -/
theorem C3_theorem (env : PMEnv) (ts : Nat) (s : Store) (u m : String)
    (h : env.appendFault = some m) :
    process_message env ts s u =
      { reply := Except.ok ("An error occurred: " ++ m), store := s, trace := [] } := by
  obtain ⟨af, uf, r1, hnd, r2, ti⟩ := env
  cases af with
  | none => exact absurd h (by simp)
  | some m2 =>
      have hm : m2 = m := by simpa using h
      subst hm
      rfl

/-- Claim C3, witness: the amended theorem at a concrete failing append. -/
theorem C3_witness :
    process_message envAppendFault 1 [] "x" =
      { reply := Except.ok ("An error occurred: disk I/O error"),
        store := [], trace := [] } :=
  C3_theorem envAppendFault 1 [] "x" "disk I/O error" rfl

/-- Claim C4, counterexample: completing an id absent from the store
(id 2 here) raises no `NotFoundError` — the UPDATE matches no row and
returns normally with the store unchanged. -/
theorem C4_counterexample :
    update_assistant_response [⟨1, "a", none, 0⟩] 2 "x" = [⟨1, "a", none, 0⟩] := rfl

/-- Claim C4 (amended): completing a nonexistent id is a silent no-op
that leaves the store unchanged, while completing an existing id sets
that exchange's assistant text to the given value. -/
theorem C4_theorem :
    (∀ (s : Store) (cid : Nat) (m : String),
        (∀ r ∈ s, r.id ≠ cid) → update_assistant_response s cid m = s) ∧
    (∀ (s : Store) (cid : Nat) (m : String) (r : Row), r ∈ s → r.id = cid →
        (⟨cid, r.user, some m, r.timestamp⟩ : Row) ∈ update_assistant_response s cid m) := by
  constructor
  · intro s cid m h
    exact update_of_miss m h
  · intro s cid m r hr hid
    unfold update_assistant_response
    apply List.mem_map.mpr
    refine ⟨r, hr, ?_⟩
    obtain ⟨rid, ru, ra, rt⟩ := r
    simp only at hid
    subst hid
    simp

/-- Claim C4, witness: both halves of the amended theorem at concrete
stores. -/
theorem C4_witness :
    update_assistant_response [⟨1, "a", none, 0⟩] 5 "x" = [⟨1, "a", none, 0⟩] ∧
    (⟨1, "a", some "x", 0⟩ : Row) ∈ update_assistant_response [⟨1, "a", none, 0⟩] 1 "x" :=
  ⟨C4_theorem.1 [⟨1, "a", none, 0⟩] 5 "x" (by decide),
   C4_theorem.2 [⟨1, "a", none, 0⟩] 1 "x" ⟨1, "a", none, 0⟩ (by decide) rfl⟩

/-- Claim C5, counterexample: dispatch does not return text for every
argument payload — arguments that are not valid JSON make
`json.loads` raise out of `execute_tool_call`. -/
theorem C5_counterexample :
    FALCONAssistant.execute_tool_call handlerEnvOk "execute_system_task"
      ArgsPayload.invalid = Except.error jsonLoadsError := rfl

/-- Claim C5 (amended): provided the arguments parse as a JSON object
containing the parameter the named handler reads, dispatch always
returns a text result — an unknown tool name yields the fixed
failure-description string and a handler-level fault is converted into a
`<capability> failed: <reason>` string; a malformed payload or a missing
required key, however, raises. -/
theorem C5_theorem :
    (∀ (env : HandlerEnv) (name : String) (args : ArgsPayload),
        argsOkFor name args = true →
        ∃ t, FALCONAssistant.execute_tool_call env name args = Except.ok t) ∧
    FALCONAssistant.execute_tool_call handlerEnvOk "nonexistent_tool"
      (ArgsPayload.object []) = Except.ok "Unknown function called." ∧
    FALCONAssistant.execute_tool_call handlerEnvImgFail "generate_image"
      (ArgsPayload.object [("prompt", "a cat")]) =
      Except.ok ("Image generation failed: boom") := by
  refine ⟨?_, rfl, rfl⟩
  intro env name args h
  cases args with
  | invalid => simp [argsOkFor] at h
  | object kv =>
      by_cases h1 : name = "execute_system_task"
      · subst h1
        simp [argsOkFor] at h
        cases hlk : lookupArg kv "task_description" with
        | none => rw [hlk] at h; simp at h
        | some t =>
            exact ⟨FALCONAssistant.execute_system_task env t,
              by simp [FALCONAssistant.execute_tool_call, hlk]⟩
      · by_cases h2 : name = "generate_image"
        · subst h2
          simp [argsOkFor] at h
          cases hlk : lookupArg kv "prompt" with
          | none => rw [hlk] at h; simp at h
          | some t =>
              exact ⟨FALCONAssistant.generate_image env,
                by simp [FALCONAssistant.execute_tool_call, hlk]⟩
        · by_cases h3 : name = "write_content"
          · subst h3
            simp [argsOkFor] at h
            cases hlk : lookupArg kv "topic" with
            | none => rw [hlk] at h; simp at h
            | some t =>
                exact ⟨FALCONAssistant.write_content env,
                  by simp [FALCONAssistant.execute_tool_call, hlk]⟩
          · exact ⟨"Unknown function called.",
              by simp [FALCONAssistant.execute_tool_call, h1, h2, h3]⟩

/-- Claim C5, witness: a well-formed dispatch through the universal half
of the theorem. -/
theorem C5_witness :
    ∃ t, FALCONAssistant.execute_tool_call handlerEnvOk "execute_system_task"
      (ArgsPayload.object [("task_description", "open chrome")]) = Except.ok t :=
  C5_theorem.1 handlerEnvOk "execute_system_task"
    (ArgsPayload.object [("task_description", "open chrome")]) (by decide)

/-- Claim C6, counterexample: in a store that already holds a completed
exchange `(a, b)`, append `c` / complete `d` / read history with limit 1
returns the OLDEST completed exchange `(a, b)` — `ORDER BY timestamp
ASC LIMIT 1` — not the pair just written. -/
theorem C6_counterexample :
    get_conversation_history
      (update_assistant_response
        (add_conversation [⟨1, "a", some "b", 0⟩] "c" none 5).fst
        (add_conversation [⟨1, "a", some "b", 0⟩] "c" none 5).snd "d") (some 1) =
      [⟨"user", "a"⟩, ⟨"assistant", "b"⟩] ∧
    get_conversation_history
      (update_assistant_response
        (add_conversation [⟨1, "a", some "b", 0⟩] "c" none 5).fst
        (add_conversation [⟨1, "a", some "b", 0⟩] "c" none 5).snd "d") (some 1) ≠
      [⟨"user", "c"⟩, ⟨"assistant", "d"⟩] :=
  ⟨rfl, by decide⟩

/-- Claim C6 (amended): the round-trip holds when the new exchange is
the only completed one — over a store with no completed exchange and a
non-empty assistant text, append / complete / history-with-limit-1
yields exactly the pair just written. -/
theorem C6_theorem (s : Store) (u a : String) (ts : Nat)
    (h1 : ∀ r ∈ s, r.assistant = none) (h2 : a ≠ "") :
    get_conversation_history
      (update_assistant_response (add_conversation s u none ts).fst
        (add_conversation s u none ts).snd a) (some 1) =
    [⟨"user", u⟩, ⟨"assistant", a⟩] := by
  rw [complete_after_append]
  unfold get_conversation_history
  have hfil : (s ++ [(⟨freshId s, u, some a, ts⟩ : Row)]).filter
      (fun r => r.assistant ≠ none) = [⟨freshId s, u, some a, ts⟩] := by
    rw [List.filter_append]
    have hnil : s.filter (fun r => r.assistant ≠ none) = [] := by
      apply List.filter_eq_nil_iff.mpr
      intro r hr
      simp [h1 r hr]
    rw [hnil]
    simp
  rw [hfil]
  simp [sortByTs, insertByTs, limitTruthy, rowsToMessages, h2]

/-- Claim C6, witness: the amended round-trip on the empty store. -/
theorem C6_witness :
    get_conversation_history
      (update_assistant_response (add_conversation [] "hi" none 0).fst
        (add_conversation [] "hi" none 0).snd "yo") (some 1) =
    [⟨"user", "hi"⟩, ⟨"assistant", "yo"⟩] :=
  C6_theorem [] "hi" "yo" 0 (by simp) (by decide)

/-- A three-day sample store for the export claim. -/
def exportSample : Store :=
  [⟨1, "a", some "b", 0⟩, ⟨2, "c", none, 86400⟩, ⟨3, "d", some "e", 172800⟩]

/-- Claim C7: the tabular-text and structured-record-list formats return
a blob holding exactly the exchanges whose creation date lies in the
inclusive range, but the spreadsheet format raises — `to_excel` is
called without its mandatory `excel_writer` argument — so not all three
enumerated formats produce a result. -/
theorem C7_theorem :
    export_conversations exportSample "excel" none none = Except.error excelTypeError ∧
    export_conversations exportSample "csv" (some 0) (some 1) =
      Except.ok (ExportBlob.csvBlob
        ("id,user,assistant,timestamp\n1,a,b,0\n2,c,,86400")) ∧
    export_conversations exportSample "records" (some 1) none =
      Except.ok (ExportBlob.recordsBlob
        [⟨2, "c", none, 86400⟩, ⟨3, "d", some "e", 172800⟩]) :=
  ⟨rfl, rfl, rfl⟩

/-- Claim C9: the automation adapter answers the fixed success string
for every oracle and every task — `run_task` never raises — even when
the response held no code block, or the extracted code was rejected by
the denylist and the `exec` call was never reached. -/
theorem C9_theorem :
    (∀ (env : HandlerEnv) (task : String),
        FALCONAssistant.execute_system_task env task = "Task executed successfully.") ∧
    extract_code_from_response "I am unable to comply." = none ∧
    (FalconAI.run_task (some "I am unable to comply.") "open chrome").ran = false ∧
    extract_code_from_response "```python\neval (payload)\n```" = some "eval (payload)" ∧
    validate_code_safety "eval (payload)" = false ∧
    (FalconAI.run_task (some "```python\neval (payload)\n```") "launch payload").ran = false ∧
    FALCONAssistant.execute_system_task
      ⟨some "```python\neval (payload)\n```", Except.ok (), Except.ok ()⟩
      "launch payload" = "Task executed successfully." :=
  ⟨fun _ _ => rfl, by decide, by decide, by decide, by decide, by decide, rfl⟩

/-- Claim C10: a limit of `0` is falsy exactly like `None`, so the cap
is skipped and the history read returns every completed exchange — one
`user` entry per completed row — rather than an empty sequence. -/
theorem C10_theorem (s : Store) :
    get_conversation_history s (some 0) = get_conversation_history s none ∧
    ((get_conversation_history s (some 0)).filter (fun m => m.role == "user")).length =
      (s.filter (fun r => r.assistant ≠ none)).length := by
  constructor
  · rfl
  · unfold get_conversation_history
    simp only [limitTruthy]
    rw [if_neg (by simp)]
    rw [userCount_rowsToMessages, sortByTs_length]
